import Mathlib

/-!
Verification of the payment callback & approval orchestration flow of this
repository (the Express handler in `app.js`, i.e. `src/unnamed/part_002`).

The development shallowly embeds:
* the SHA-256 digests the handler computes with `crypto.createHash("sha256")`
  (a full executable SHA-256 over byte lists, machine words as `Nat` reduced
  mod 2^32);
* the `/INIstdpay_pc_return.ejs` POST handler as a pure function from the
  request body, the environment signing key, the current clock value and the
  (oracle-supplied) approval-response outcome to the list of emitted events
  (request construction and outgoing network POSTs) plus the rendered result;
* the Endpoint Registry (`properties.js` is absent from the source tree, only
  its callers and test harnesses are present), modelled from the spec.
-/

/-! ## SHA-256 (the `crypto.createHash("sha256").update(...).digest('hex')` calls) -/

/-- Word size modulus: arithmetic in SHA-256 is on 32-bit words. -/
def M32 : Nat := 4294967296

/-- Rotate a 32-bit word right by n bit positions. -/
def rotr (n x : Nat) : Nat := ((x >>> n) ||| (x <<< (32 - n))) % M32

/-- Message-schedule sigma-0. -/
def ssig0 (x : Nat) : Nat := (rotr 7 x) ^^^ (rotr 18 x) ^^^ (x >>> 3)

/-- Message-schedule sigma-1. -/
def ssig1 (x : Nat) : Nat := (rotr 17 x) ^^^ (rotr 19 x) ^^^ (x >>> 10)

/-- Round function Sigma-0. -/
def bsig0 (x : Nat) : Nat := (rotr 2 x) ^^^ (rotr 13 x) ^^^ (rotr 22 x)

/-- Round function Sigma-1. -/
def bsig1 (x : Nat) : Nat := (rotr 6 x) ^^^ (rotr 11 x) ^^^ (rotr 25 x)

/-- Choice function. -/
def shaCh (e f g : Nat) : Nat := (e &&& f) ^^^ ((e ^^^ (M32 - 1)) &&& g)

/-- Majority function. -/
def shaMaj (a b c : Nat) : Nat := (a &&& b) ^^^ (a &&& c) ^^^ (b &&& c)

/-- The 64 SHA-256 round constants (FIPS 180-4, in decimal). -/
def shaK : List Nat :=
  [1116352408, 1899447441, 3049323471, 3921009573, 961987163, 1508970993,
   2453635748, 2870763221, 3624381080, 310598401, 607225278, 1426881987,
   1925078388, 2162078206, 2614888103, 3248222580, 3835390401, 4022224774,
   264347078, 604807628, 770255983, 1249150122, 1555081692, 1996064986,
   2554220882, 2821834349, 2952996808, 3210313671, 3336571891, 3584528711,
   113926993, 338241895, 666307205, 773529912, 1294757372, 1396182291,
   1695183700, 1986661051, 2177026350, 2456956037, 2730485921, 2820302411,
   3259730800, 3345764771, 3516065817, 3600352804, 4094571909, 275423344,
   430227734, 506948616, 659060556, 883997877, 958139571, 1322822218,
   1537002063, 1747873779, 1955562222, 2024104815, 2227730452, 2361852424,
   2428436474, 2756734187, 3204031479, 3329325298]

/-- Hash state: the eight 32-bit chaining words. -/
structure ShaState where
  h0 : Nat
  h1 : Nat
  h2 : Nat
  h3 : Nat
  h4 : Nat
  h5 : Nat
  h6 : Nat
  h7 : Nat
  deriving DecidableEq

/-- Working registers of the compression loop. -/
structure ShaRegs where
  a : Nat
  b : Nat
  c : Nat
  d : Nat
  e : Nat
  f : Nat
  g : Nat
  h : Nat
  deriving DecidableEq

/-- Group a block's bytes into big-endian 32-bit words. -/
def bytesToWords : List Nat → List Nat
  | b0 :: b1 :: b2 :: b3 :: rest =>
      (((b0 * 256 + b1) * 256 + b2) * 256 + b3) :: bytesToWords rest
  | _ => []

/-- Extend the 16 message words by `k` more schedule words. -/
def extendSchedule (w : List Nat) : Nat → List Nat
  | 0 => w
  | Nat.succ k =>
      let i := w.length
      let x := (ssig1 (w.getD (i - 2) 0) + w.getD (i - 7) 0 +
                ssig0 (w.getD (i - 15) 0) + w.getD (i - 16) 0) % M32
      extendSchedule (w ++ [x]) k

/-- One SHA-256 round. -/
def shaRound (r : ShaRegs) (kw : Nat × Nat) : ShaRegs :=
  let t1 := (r.h + bsig1 r.e + shaCh r.e r.f r.g + kw.1 + kw.2) % M32
  let t2 := (bsig0 r.a + shaMaj r.a r.b r.c) % M32
  ⟨(t1 + t2) % M32, r.a, r.b, r.c, (r.d + t1) % M32, r.e, r.f, r.g⟩

/-- Compress one 64-byte block into the chaining state. -/
def shaCompress (st : ShaState) (block : List Nat) : ShaState :=
  let w := extendSchedule (bytesToWords block) 48
  let r := (shaK.zip w).foldl shaRound ⟨st.h0, st.h1, st.h2, st.h3, st.h4, st.h5, st.h6, st.h7⟩
  ⟨(st.h0 + r.a) % M32, (st.h1 + r.b) % M32, (st.h2 + r.c) % M32, (st.h3 + r.d) % M32,
   (st.h4 + r.e) % M32, (st.h5 + r.f) % M32, (st.h6 + r.g) % M32, (st.h7 + r.h) % M32⟩

/-- The message length in bits, as eight big-endian bytes. -/
def lengthBytes (n : Nat) : List Nat :=
  [(n >>> 56) % 256, (n >>> 48) % 256, (n >>> 40) % 256, (n >>> 32) % 256,
   (n >>> 24) % 256, (n >>> 16) % 256, (n >>> 8) % 256, n % 256]

/-- SHA-256 padding: a 0x80 byte, zeros up to 56 mod 64, then the bit length. -/
def shaPad (msg : List Nat) : List Nat :=
  msg ++ [0x80] ++ List.replicate ((119 - msg.length % 64) % 64) 0 ++ lengthBytes (msg.length * 8)

/-- Split a byte list into 64-byte blocks; the fuel argument (instantiated
with the list length, which bounds the block count) keeps the recursion
structural. -/
def toBlocksGo : Nat → List Nat → List (List Nat)
  | _, [] => []
  | 0, _ => []
  | Nat.succ f, b :: rest => ((b :: rest).take 64) :: toBlocksGo f ((b :: rest).drop 64)

/-- Split a padded message into 64-byte blocks. -/
def toBlocks (l : List Nat) : List (List Nat) := toBlocksGo l.length l

/-- The four big-endian bytes of a 32-bit word. -/
def wordBytes (w : Nat) : List Nat :=
  [(w >>> 24) % 256, (w >>> 16) % 256, (w >>> 8) % 256, w % 256]

/-- The 32 digest bytes of SHA-256 over a byte list. -/
def sha256 (msg : List Nat) : List Nat :=
  let st := (toBlocks (shaPad msg)).foldl shaCompress
    ⟨1779033703, 3144134277, 1013904242, 2773480762, 1359893119, 2600822924, 528734635, 1541459225⟩
  wordBytes st.h0 ++ wordBytes st.h1 ++ wordBytes st.h2 ++ wordBytes st.h3 ++
  wordBytes st.h4 ++ wordBytes st.h5 ++ wordBytes st.h6 ++ wordBytes st.h7

/-- The sixteen lowercase hexadecimal digit characters. -/
def hexDigits : List Char := "0123456789abcdef".toList

/-- The hexadecimal digit character of a value below 16. -/
def hexDigit (n : Nat) : Char := hexDigits.getD n '0'

/-- Lowercase hexadecimal characters of a byte list, two per byte. -/
def bytesToHexList : List Nat → List Char
  | [] => []
  | b :: t => hexDigit ((b >>> 4) % 16) :: hexDigit (b % 16) :: bytesToHexList t

/-- Lowercase hexadecimal string of a byte list. -/
def bytesToHex (bs : List Nat) : String := String.mk (bytesToHexList bs)

/-- UTF-8 encoding of a single code point, as bytes. -/
def utf8EncodeChar (n : Nat) : List Nat :=
  if n < 0x80 then [n]
  else if n < 0x800 then [0xC0 ||| (n >>> 6), 0x80 ||| (n &&& 0x3F)]
  else if n < 0x10000 then
    [0xE0 ||| (n >>> 12), 0x80 ||| ((n >>> 6) &&& 0x3F), 0x80 ||| (n &&& 0x3F)]
  else
    [0xF0 ||| (n >>> 18), 0x80 ||| ((n >>> 12) &&& 0x3F),
     0x80 ||| ((n >>> 6) &&& 0x3F), 0x80 ||| (n &&& 0x3F)]

/-- UTF-8 bytes of a string. -/
def utf8Bytes (s : String) : List Nat :=
  (s.toList.map (fun c => utf8EncodeChar c.toNat)).flatten

/-- Model of `crypto.createHash("sha256").update(s).digest('hex')`: the
lowercase-hex SHA-256 digest of the UTF-8 bytes of `s`. -/
def sha256hex (s : String) : String := bytesToHex (sha256 (utf8Bytes s))

/-! ## The Signer

The request page handler (`app.get("/")`, app.js line 37) computes
`signature = sha256("oid=" + oid + "&price=" + price + "&timestamp=" + timestamp)`.
The spec abstracts these inline digests into a Signer whose `digest` joins
ordered name=value pairs with `&`. -/

/-- Preimage string of the request signature, exactly as app.js line 37
concatenates it (the timestamp is a JS number, printed in decimal). -/
def sigInput (oid price : String) (timestamp : Nat) : String :=
  "oid=" ++ oid ++ "&price=" ++ price ++ "&timestamp=" ++ toString timestamp

/-- The request signature of app.js line 37. -/
def requestSignature (oid price : String) (timestamp : Nat) : String :=
  sha256hex (sigInput oid price timestamp)

/-- Join a list of strings with the ampersand character. -/
def joinAmp : List String → String
  | [] => ""
  | [x] => x
  | x :: y :: rest => x ++ "&" ++ joinAmp (y :: rest)

/-- Modelled from the spec: the Signer contract `digest(fields) -> hex string`
(spec section 4.1) — SHA-256 over the UTF-8 byte string formed by joining
`name=value` pairs with `&` in the exact order supplied by the caller. The
Signer component itself has no separate source file (the source inlines each
digest), so this definition follows the spec's words; the theorems below relate
the source's inline digests to it. -/
def digestSpec (fields : List (String × String)) : String :=
  sha256hex (joinAmp (fields.map (fun f => f.1 ++ "=" ++ f.2)))

/-! ## Callback handler data model (`app.post("/INIstdpay_pc_return.ejs")`)

JavaScript object fields that may be absent are `Option String` (`none` is
`undefined`). JS truthiness on such values: `undefined` and the empty string
are falsy, every other string truthy. -/

/-- Fields of `req.body` that the handler reads. -/
structure ReqBody where
  resultCode : Option String
  resultMsg : Option String
  mid : Option String
  authToken : Option String
  netCancelUrl : Option String
  merchantData : Option String
  idc_name : Option String
  authUrl : Option String
  oid : Option String
  price : Option String
  tid : Option String
  MOID : Option String
  TotPrice : Option String
  goodName : Option String
  applDate : Option String
  applTime : Option String
  deriving DecidableEq

/-- Fields the handler reads from a parsed approval-response JSON object. -/
structure RespFields where
  resultCode : Option String
  resultMsg : Option String
  tid : Option String
  MOID : Option String
  TotPrice : Option String
  goodName : Option String
  applDate : Option String
  applTime : Option String
  deriving DecidableEq

/-- Outcome of `JSON.parse` on the approval call's response (app.js lines
119-120): either it yields an object, or it throws (network error objects and
unparsable bodies both land in the catch block). -/
inductive ApprovalResponse where
  | parsed (r : RespFields)
  | parseFailed
  deriving DecidableEq

/-- The `options` object of app.js lines 94-102, posted to both the approval
and the network-cancel endpoints. -/
structure ApprovalOptions where
  mid : Option String
  authToken : Option String
  timestamp : Nat
  signature : String
  verification : String
  charset : String
  format : String
  deriving DecidableEq

/-- Observable steps of the handler, in program order: construction of the
approval request (lines 87-102, before the URL check) and the outgoing
`request.post` calls (lines 109 and 142). -/
inductive Event where
  | builtApprovalRequest (opts : ApprovalOptions)
  | postApproval (uri : String) (opts : ApprovalOptions)
  | postNetCancel (uri : String) (opts : ApprovalOptions)
  deriving DecidableEq

/-- The record handed to `res.render('INIstdpay_pc_return.ejs', ...)`. -/
structure Rendered where
  resultCode : Option String
  resultMsg : Option String
  tid : Option String
  MOID : Option String
  TotPrice : Option String
  goodName : Option String
  applDate : Option String
  applTime : Option String
  deriving DecidableEq

/-- What one handled callback produces: the event trace, the rendered result,
and whether it was rendered with HTTP status 500 (the outer catch). -/
structure HandlerOutput where
  events : List Event
  rendered : Rendered
  status500 : Bool
  deriving DecidableEq

/-- The Endpoint Registry interface the handler consumes
(`require('./properties')`): URL lookups keyed by the data-center name. -/
structure Registry where
  getAuthUrl : Option String → Option String
  getNetCancel : Option String → Option String

/-- JS truthiness of a possibly-absent string. -/
def jsTruthy : Option String → Bool
  | none => false
  | some s => s ≠ ""

/-- JS `a || b` on possibly-absent strings. -/
def jsOr (a b : Option String) : Option String := if jsTruthy a then a else b

/-- JS string coercion of a possibly-absent string, as it happens inside
string concatenation: `undefined` prints as "undefined". -/
def jsStr : Option String → String
  | none => "undefined"
  | some s => s

/-! ## The callback handler -/

/-- The approval request of app.js lines 87-102: a fresh timestamp,
`signature = sha256("authToken=" + authToken + "&timestamp=" + timestamp)`,
`verification = sha256("authToken=" + authToken + "&signKey=" + signKey +
"&timestamp=" + timestamp)`, fixed charset and format. -/
def optionsFor (signKey : String) (timestamp : Nat) (body : ReqBody) : ApprovalOptions where
  mid := body.mid
  authToken := body.authToken
  timestamp := timestamp
  signature :=
    sha256hex ("authToken=" ++ jsStr body.authToken ++ "&timestamp=" ++ toString timestamp)
  verification :=
    sha256hex ("authToken=" ++ jsStr body.authToken ++ "&signKey=" ++ signKey ++
      "&timestamp=" ++ toString timestamp)
  charset := "UTF-8"
  format := "JSON"

/-- The render of app.js lines 124-133 (approval response parsed): each field
falls back per JS `||`. -/
def renderParsed (body : ReqBody) (r : RespFields) : Rendered where
  resultCode := jsOr r.resultCode (some "9999")
  resultMsg := jsOr r.resultMsg (some "응답 파싱 오류")
  tid := jsOr r.tid (some "N/A")
  MOID := jsOr r.MOID body.oid
  TotPrice := jsOr r.TotPrice body.price
  goodName := jsOr r.goodName (some "N/A")
  applDate := jsOr r.applDate (some "N/A")
  applTime := jsOr r.applTime (some "N/A")

/-- The render of app.js lines 149-158 (the catch block after a failed parse). -/
def renderCatch (body : ReqBody) : Rendered where
  resultCode := some "9999"
  resultMsg := some "승인 처리 중 오류 발생"
  tid := some "N/A"
  MOID := jsOr body.oid (some "N/A")
  TotPrice := jsOr body.price (some "N/A")
  goodName := some "N/A"
  applDate := some "N/A"
  applTime := some "N/A"

/-- The render of app.js lines 163-172 (URL match failure). -/
def renderMismatch (body : ReqBody) : Rendered where
  resultCode := some "9999"
  resultMsg := some "URL 매칭 실패"
  tid := some "N/A"
  MOID := jsOr body.oid (some "N/A")
  TotPrice := jsOr body.price (some "N/A")
  goodName := some "N/A"
  applDate := some "N/A"
  applTime := some "N/A"

/-- The render of app.js lines 190-199 (the outer catch: a synchronous throw
inside the handler body), sent with HTTP status 500. -/
def renderServerError : Rendered where
  resultCode := some "9999"
  resultMsg := some "서버 처리 오류"
  tid := some "N/A"
  MOID := some "N/A"
  TotPrice := some "N/A"
  goodName := some "N/A"
  applDate := some "N/A"
  applTime := some "N/A"

/-- The render of app.js lines 177-186 (widget-level decline,
`resultCode !== "0000"`): the callback's own fields pass through unchanged. -/
def renderDecline (body : ReqBody) : Rendered where
  resultCode := body.resultCode
  resultMsg := body.resultMsg
  tid := body.tid
  MOID := body.MOID
  TotPrice := body.TotPrice
  goodName := body.goodName
  applDate := body.applDate
  applTime := body.applTime

/-- The `resultCode === "0000"` branch of the handler (app.js lines 57-173).
The approval request (`options`, with its digests) is computed at lines 87-102,
before the URL comparison at line 106; the trace therefore records its
construction first.  JS `==` between the callback's field and the registry
value is `Option`-equality: two absent values compare equal, an absent value
never equals a string.  When both `authUrl` and the registry value are absent,
`request.post` is invoked with an undefined `uri` and throws synchronously
("options.uri is a required argument"); the outer catch then renders the
500 error page and no network call is made.  In the catch block (lines
137-146) the network-cancel POST is issued only when the callback's
`netCancelUrl` equals the registry's value; the inner `none`/`none` corner
(both absent) cannot arise for the modelled registry, which knows the cancel
URL of every data center whose approval URL it knows. -/
def handleApprove (reg : Registry) (signKey : String) (nowMillis : Nat)
    (body : ReqBody) (resp : ApprovalResponse) : HandlerOutput :=
  let options := optionsFor signKey nowMillis body
  let authUrl2 := reg.getAuthUrl body.idc_name
  if body.authUrl = authUrl2 then
    match authUrl2 with
    | some u =>
      match resp with
      | ApprovalResponse.parsed r =>
          ⟨[Event.builtApprovalRequest options, Event.postApproval u options],
           renderParsed body r, false⟩
      | ApprovalResponse.parseFailed =>
          let netCancelUrl2 := reg.getNetCancel body.idc_name
          let cancels :=
            if body.netCancelUrl = netCancelUrl2 then
              match netCancelUrl2 with
              | some cu => [Event.postNetCancel cu options]
              | none => []
            else []
          ⟨Event.builtApprovalRequest options :: Event.postApproval u options :: cancels,
           renderCatch body, false⟩
    | none =>
        ⟨[Event.builtApprovalRequest options], renderServerError, true⟩
  else
    ⟨[Event.builtApprovalRequest options], renderMismatch body, false⟩

/-- The `/INIstdpay_pc_return.ejs` POST handler (app.js lines 52-201). -/
def handleReturn (reg : Registry) (signKey : String) (nowMillis : Nat)
    (body : ReqBody) (resp : ApprovalResponse) : HandlerOutput :=
  if body.resultCode = some "0000" then
    handleApprove reg signKey nowMillis body resp
  else
    ⟨[], renderDecline body, false⟩

/-- Modelled from the spec: approval-URL lookup of the Endpoint Registry
(`properties.js`, absent from the source tree — only its callers and the
repository's verification scripts are present). Per spec section 4.5 it is a
pure lookup over a small fixed enumeration of known data centers and returns
no result for unknown identifiers; the known centers ("fc", "ks", "stg") and
the URL shapes are the ones the repository's own test scripts exercise. -/
def inicisAuthUrl (idc : Option String) : Option String :=
  if idc = some "fc" then some "https://fcstdpay.inicis.com/api/payAuth"
  else if idc = some "ks" then some "https://ksstdpay.inicis.com/api/payAuth"
  else if idc = some "stg" then some "https://stgstdpay.inicis.com/api/payAuth"
  else none

/-- Modelled from the spec: network-cancellation-URL lookup of the Endpoint
Registry, over the same enumeration of data centers as `inicisAuthUrl`. -/
def inicisNetCancelUrl (idc : Option String) : Option String :=
  if idc = some "fc" then some "https://fcstdpay.inicis.com/api/netCancel"
  else if idc = some "ks" then some "https://ksstdpay.inicis.com/api/netCancel"
  else if idc = some "stg" then some "https://stgstdpay.inicis.com/api/netCancel"
  else none

/-- The Endpoint Registry the deployed handler consumes. -/
def inicisRegistry : Registry := ⟨inicisAuthUrl, inicisNetCancelUrl⟩

/-! ## Trace observations -/

/-- Whether an event is the outgoing approval POST. -/
def Event.isApprovalPost : Event → Bool
  | Event.postApproval _ _ => true
  | _ => false

/-- Whether an event is the outgoing network-cancel POST. -/
def Event.isNetCancelPost : Event → Bool
  | Event.postNetCancel _ _ => true
  | _ => false

/-- The approval POSTs of a handler run. -/
def approvalPosts (o : HandlerOutput) : List Event :=
  o.events.filter Event.isApprovalPost

/-- The network-cancel POSTs of a handler run. -/
def netCancelPosts (o : HandlerOutput) : List Event :=
  o.events.filter Event.isNetCancelPost

/-- All outgoing network POSTs of a handler run. -/
def networkPosts (o : HandlerOutput) : List Event :=
  o.events.filter (fun e => e.isApprovalPost || e.isNetCancelPost)

/-- The approval requests a handler run constructed. -/
def builtRequests (o : HandlerOutput) : List ApprovalOptions :=
  o.events.filterMap (fun e =>
    match e with
    | Event.builtApprovalRequest opts => some opts
    | _ => none)

/-- The destination URLs of the network-cancel POSTs of a run. -/
def netCancelUris (o : HandlerOutput) : List String :=
  o.events.filterMap (fun e =>
    match e with
    | Event.postNetCancel u _ => some u
    | _ => none)

/-- The destination URLs of the approval POSTs of a run. -/
def approvalUris (o : HandlerOutput) : List String :=
  o.events.filterMap (fun e =>
    match e with
    | Event.postApproval u _ => some u
    | _ => none)

/-! ## Structural facts about the digests -/

/-- The digest always has 32 bytes. -/
theorem sha256_length (m : List Nat) : (sha256 m).length = 32 := by
  simp [sha256, wordBytes]

/-- Every extracted word byte is below 256. -/
theorem mem_wordBytes_lt {b w : Nat} (h : b ∈ wordBytes w) : b < 256 := by
  simp [wordBytes] at h
  rcases h with h | h | h | h <;> subst h <;> exact Nat.mod_lt _ (by norm_num)

/-- Every digest byte is below 256. -/
theorem mem_sha256_lt {b : Nat} {m : List Nat} (h : b ∈ sha256 m) : b < 256 := by
  simp only [sha256, List.mem_append] at h
  rcases h with ((((((h | h) | h) | h) | h) | h) | h) | h <;> exact mem_wordBytes_lt h

/-- Hex encoding yields two characters per byte. -/
theorem bytesToHexList_length (bs : List Nat) : (bytesToHexList bs).length = 2 * bs.length := by
  induction bs with
  | nil => simp [bytesToHexList]
  | cons b t ih => simp [bytesToHexList, ih]; ring

/-- Hex-string length is twice the byte count. -/
theorem bytesToHex_length (bs : List Nat) : (bytesToHex bs).length = 2 * bs.length := by
  simp [bytesToHex, String.length, bytesToHexList_length]

/-- Digit characters of values below 16 are lowercase hex characters. -/
theorem hexDigit_mem : ∀ n < 16, hexDigit n ∈ hexDigits := by decide

/-- Every character of a hex encoding is a lowercase hex character. -/
theorem mem_bytesToHexList (bs : List Nat) : ∀ c ∈ bytesToHexList bs, c ∈ hexDigits := by
  induction bs with
  | nil => simp [bytesToHexList]
  | cons b t ih =>
    intro c hc
    simp only [bytesToHexList, List.mem_cons] at hc
    rcases hc with h | h | h
    · subst h; exact hexDigit_mem _ (Nat.mod_lt _ (by norm_num))
    · subst h; exact hexDigit_mem _ (Nat.mod_lt _ (by norm_num))
    · exact ih c h

/-- Every hex digest string has exactly 64 characters. -/
theorem sha256hex_length (s : String) : (sha256hex s).length = 64 := by
  simp [sha256hex, bytesToHex_length, sha256_length]

/-- Every character of a hex digest string is a lowercase hex character. -/
theorem sha256hex_chars (s : String) : ∀ c ∈ (sha256hex s).toList, c ∈ hexDigits := by
  intro c hc
  simp only [sha256hex, bytesToHex, String.toList] at hc
  exact mem_bytesToHexList _ c hc

/-- Numeric value of a byte list, little-endian base 256 (each entry reduced
mod 256), used to pack digests into a finite codomain. -/
def bytesVal : List Nat → Nat
  | [] => 0
  | b :: t => b % 256 + 256 * bytesVal t

/-- The packed value is bounded by 256 to the length. -/
theorem bytesVal_lt (l : List Nat) : bytesVal l < 256 ^ l.length := by
  induction l with
  | nil => simp [bytesVal]
  | cons b t ih =>
    simp only [bytesVal, List.length_cons, pow_succ]
    have hb : b % 256 < 256 := Nat.mod_lt _ (by norm_num)
    calc b % 256 + 256 * bytesVal t < 256 + 256 * bytesVal t := by omega
    _ ≤ 256 * (bytesVal t + 1) := by ring_nf; omega
    _ ≤ 256 * 256 ^ t.length := by
        have := ih
        omega
    _ = 256 ^ t.length * 256 := by ring

/-- Packing is injective on equal-length lists of genuine bytes. -/
theorem bytesVal_inj : ∀ (l1 l2 : List Nat), l1.length = l2.length →
    (∀ b ∈ l1, b < 256) → (∀ b ∈ l2, b < 256) → bytesVal l1 = bytesVal l2 → l1 = l2 := by
  intro l1
  induction l1 with
  | nil => intro l2 hl _ _ _; cases l2 with
    | nil => rfl
    | cons b t => simp at hl
  | cons b1 t1 ih =>
    intro l2 hl hb1 hb2 hv
    cases l2 with
    | nil => simp at hl
    | cons b2 t2 =>
      simp only [bytesVal] at hv
      have hb1' : b1 < 256 := hb1 b1 (by simp)
      have hb2' : b2 < 256 := hb2 b2 (by simp)
      rw [Nat.mod_eq_of_lt hb1', Nat.mod_eq_of_lt hb2'] at hv
      have heq : b1 = b2 ∧ bytesVal t1 = bytesVal t2 := by omega
      have ht : t1 = t2 := by
        refine ih t2 ?_ ?_ ?_ heq.2
        · simpa using hl
        · intro b hb; exact hb1 b (by simp [hb])
        · intro b hb; exact hb2 b (by simp [hb])
      rw [heq.1, ht]

/-! ## Decimal printing of the timestamp

`Nat.repr` (the `toString` of the JS number the source concatenates into the
digest preimages) is injective; proved through a structurally recursive
decimal printer. -/

/-- Decimal digit characters of a number, most significant first. -/
def decDigits (n : Nat) : List Char :=
  if _h : n < 10 then [Nat.digitChar n]
  else decDigits (n / 10) ++ [Nat.digitChar (n % 10)]
decreasing_by exact Nat.div_lt_self (by omega) (by norm_num)

/-- Unfolding below ten. -/
theorem decDigits_lt {n : Nat} (h : n < 10) : decDigits n = [Nat.digitChar n] := by
  rw [decDigits]
  simp [h]

/-- Unfolding at ten and above. -/
theorem decDigits_ge {n : Nat} (h : ¬ n < 10) :
    decDigits n = decDigits (n / 10) ++ [Nat.digitChar (n % 10)] := by
  conv_lhs => rw [decDigits]
  simp [h]

/-- Decimal printing never yields the empty list. -/
theorem decDigits_ne_nil (n : Nat) : decDigits n ≠ [] := by
  rw [decDigits]
  split <;> simp

/-- The fuelled core printer agrees with the structural printer once the fuel
covers the digit count. -/
theorem toDigitsCore_eq_decDigits :
    ∀ (f n : Nat) (acc : List Char), 0 < f → n < 10 ^ f →
      Nat.toDigitsCore 10 f n acc = decDigits n ++ acc := by
  intro f
  induction f with
  | zero => intro n acc h; omega
  | succ f ih =>
    intro n acc _ h
    by_cases h10 : n / 10 = 0
    · have hn : n < 10 := by omega
      rw [Nat.toDigitsCore]
      simp [h10, decDigits_lt hn, Nat.mod_eq_of_lt hn]
    · have hn : ¬ n < 10 := by omega
      have hdiv : n / 10 < 10 ^ f := by
        rw [Nat.div_lt_iff_lt_mul (by norm_num)]
        rw [pow_succ] at h
        exact h
      have hf : 0 < f := by
        rcases Nat.eq_zero_or_pos f with rfl | hf
        · simp at hdiv
          omega
        · exact hf
      rw [Nat.toDigitsCore]
      simp only [h10, if_false]
      rw [ih (n / 10) _ hf hdiv, decDigits_ge hn, List.append_assoc]
      simp

/-- `Nat.repr` prints exactly the structural decimal digits. -/
theorem repr_eq_decDigits (n : Nat) : (Nat.repr n).toList = decDigits n := by
  have hlt : n < 10 ^ (n + 1) := by
    calc n < 10 ^ n := Nat.lt_pow_self (by norm_num) n
    _ ≤ 10 ^ (n + 1) := Nat.pow_le_pow_right (by norm_num) (by omega)
  simp [Nat.repr, Nat.toDigits, toDigitsCore_eq_decDigits (n + 1) n [] (by omega) hlt,
    List.asString, String.toList]

/-- Digit characters of values below ten are pairwise distinct. -/
theorem digitChar_inj : ∀ a < 10, ∀ b < 10, Nat.digitChar a = Nat.digitChar b → a = b := by decide

/-- Structural decimal printing is injective. -/
theorem decDigits_inj : ∀ (m n : Nat), decDigits m = decDigits n → m = n := by
  intro m
  induction m using Nat.strong_induction_on with
  | _ m ih =>
    intro n h
    by_cases hm : m < 10 <;> by_cases hn : n < 10
    · rw [decDigits_lt hm, decDigits_lt hn] at h
      simp at h
      exact digitChar_inj m hm n hn h
    · rw [decDigits_lt hm, decDigits_ge hn] at h
      have hpos : 0 < (decDigits (n / 10)).length :=
        List.length_pos.mpr (decDigits_ne_nil _)
      have hlen : 1 = (decDigits (n / 10)).length + 1 := by
        simpa using congrArg List.length h
      omega
    · rw [decDigits_ge hm, decDigits_lt hn] at h
      have hpos : 0 < (decDigits (m / 10)).length :=
        List.length_pos.mpr (decDigits_ne_nil _)
      have hlen : (decDigits (m / 10)).length + 1 = 1 := by
        simpa using congrArg List.length h
      omega
    · rw [decDigits_ge hm, decDigits_ge hn] at h
      have hsplit := List.append_inj' h (by simp)
      have h1 : m / 10 = n / 10 := ih (m / 10) (Nat.div_lt_self (by omega) (by norm_num)) _ hsplit.1
      have h2 : m % 10 = n % 10 := by
        have hx := hsplit.2
        simp at hx
        exact digitChar_inj _ (Nat.mod_lt _ (by norm_num)) _ (Nat.mod_lt _ (by norm_num)) hx
      omega

/-- Decimal printing of naturals is injective. -/
theorem natRepr_injective {m n : Nat} (h : Nat.repr m = Nat.repr n) : m = n := by
  apply decDigits_inj
  rw [← repr_eq_decDigits, ← repr_eq_decDigits, h]

/-! ## String plumbing for the digest preimages -/

/-- Strings with equal character data are equal. -/
theorem string_data_inj {a b : String} (h : a.data = b.data) : a = b :=
  congrArg String.mk h

/-- The source's request-signature preimage is the Signer's ampersand-join of
the `oid`, `price`, `timestamp` fields, in that order. -/
theorem sigInput_eq_joinAmp (oid price : String) (ts : Nat) :
    sigInput oid price ts =
      joinAmp ["oid=" ++ oid, "price=" ++ price, "timestamp=" ++ toString ts] := by
  apply string_data_inj
  show (sigInput oid price ts).data =
    (("oid=" ++ oid) ++ "&" ++ (("price=" ++ price) ++ "&" ++ ("timestamp=" ++ toString ts))).data
  simp [sigInput]

/-- With price and timestamp fixed, the signature preimage determines the
order id. -/
theorem sigInput_oid_inj {o1 o2 p : String} {t : Nat}
    (h : sigInput o1 p t = sigInput o2 p t) : o1 = o2 := by
  have h2 := congrArg String.data h
  simp [sigInput] at h2
  exact string_data_inj h2

/-- With order id and timestamp fixed, the signature preimage determines the
price. -/
theorem sigInput_price_inj {o p1 p2 : String} {t : Nat}
    (h : sigInput o p1 t = sigInput o p2 t) : p1 = p2 := by
  have h2 := congrArg String.data h
  simp [sigInput] at h2
  exact string_data_inj h2

/-- With order id and price fixed, the signature preimage determines the
timestamp. -/
theorem sigInput_ts_inj {o p : String} {t1 t2 : Nat}
    (h : sigInput o p t1 = sigInput o p t2) : t1 = t2 := by
  have h2 := congrArg String.data h
  simp [sigInput] at h2
  exact natRepr_injective (string_data_inj h2)

/-- The approval signature preimage of app.js line 87 is the Signer's join of
the `authToken`, `timestamp` fields. -/
theorem approvalSig_eq (a : Option String) (t : Nat) :
    sha256hex ("authToken=" ++ jsStr a ++ "&timestamp=" ++ toString t) =
      digestSpec [("authToken", jsStr a), ("timestamp", toString t)] := by
  unfold digestSpec
  congr 1
  apply string_data_inj
  simp [joinAmp]

/-- The approval verification preimage of app.js line 90 is the Signer's join
of the `authToken`, `signKey`, `timestamp` fields. -/
theorem approvalVerif_eq (a : Option String) (sk : String) (t : Nat) :
    sha256hex ("authToken=" ++ jsStr a ++ "&signKey=" ++ sk ++ "&timestamp=" ++ toString t) =
      digestSpec [("authToken", jsStr a), ("signKey", sk), ("timestamp", toString t)] := by
  unfold digestSpec
  congr 1
  apply string_data_inj
  simp [joinAmp]

/-- An infinite family of order ids is mapped by the digest into a finite
codomain, so some two distinct order ids share a request signature. -/
theorem requestSignature_collision (price : String) (ts : Nat) :
    ∃ oid1 oid2 : String, oid1 ≠ oid2 ∧
      requestSignature oid1 price ts = requestSignature oid2 price ts := by
  classical
  let msg : Nat → List Nat := fun n =>
    utf8Bytes (sigInput (String.mk (List.replicate n 'a')) price ts)
  let f : Nat → Fin (256 ^ 32) := fun n =>
    ⟨bytesVal (sha256 (msg n)), by
      have h := bytesVal_lt (sha256 (msg n))
      rwa [sha256_length] at h⟩
  obtain ⟨n, m, hnm, hfeq⟩ := Finite.exists_ne_map_eq_of_infinite f
  refine ⟨String.mk (List.replicate n 'a'), String.mk (List.replicate m 'a'), ?_, ?_⟩
  · intro h
    apply hnm
    have := congrArg String.length h
    simpa [String.length] using this
  · have hv : bytesVal (sha256 (msg n)) = bytesVal (sha256 (msg m)) := by
      have := congrArg Fin.val hfeq
      simpa [f] using this
    have hdig : sha256 (msg n) = sha256 (msg m) := by
      refine bytesVal_inj _ _ ?_ ?_ ?_ hv
      · rw [sha256_length, sha256_length]
      · intro b hb; exact mem_sha256_lt hb
      · intro b hb; exact mem_sha256_lt hb
    simpa [requestSignature, sha256hex, msg] using congrArg bytesToHex hdig

/-! ## Registry facts -/

/-- Every data center whose approval URL the registry knows also has a known
network-cancellation URL. -/
theorem inicisAuth_known {idc : Option String} {u : String}
    (h : inicisRegistry.getAuthUrl idc = some u) :
    ∃ cu, inicisRegistry.getNetCancel idc = some cu := by
  simp only [inicisRegistry] at h ⊢
  unfold inicisAuthUrl at h
  unfold inicisNetCancelUrl
  split_ifs at h <;> simp_all

/-! ## Concrete fixtures -/

/-- The registry's approval URL of the `fc` data center. -/
def fcAuthUrl : String := "https://fcstdpay.inicis.com/api/payAuth"

/-- The registry's network-cancellation URL of the `fc` data center. -/
def fcCancelUrl : String := "https://fcstdpay.inicis.com/api/netCancel"

/-- A widget-success callback whose URLs both match the registry. -/
def okBody : ReqBody :=
  ⟨some "0000", some "성공", some "INIpayTest", some "tok123", some fcCancelUrl, none,
   some "fc", some fcAuthUrl, some "INIpayTest_01234", some "1000",
   none, none, none, none, none, none⟩

/-- A widget-success callback claiming a foreign approval URL. -/
def mismatchBody : ReqBody := { okBody with authUrl := some "https://evil.example/api/payAuth" }

/-- A widget-success callback naming a data center the registry does not know. -/
def unknownIdcBody : ReqBody := { okBody with idc_name := some "zz" }

/-- A widget-level decline callback. -/
def declinedBody : ReqBody :=
  { okBody with
    resultCode := some "1234"
    resultMsg := some "사용자 취소"
    tid := some "t0"
    MOID := some "m0"
    TotPrice := some "1000"
    goodName := some "g"
    applDate := some "20240101"
    applTime := some "120000" }

/-- A widget-success callback claiming a foreign network-cancellation URL. -/
def evilCancelBody : ReqBody :=
  { okBody with netCancelUrl := some "https://evil.example/api/netCancel" }

/-- A parsed approval-response object carrying no fields at all. -/
def emptyResp : RespFields := ⟨none, none, none, none, none, none, none, none⟩

/-- A parsed successful approval-response object. -/
def okResp : RespFields :=
  ⟨some "0000", some "ok", some "T1", some "m0", some "1000", some "g",
   some "20240101", some "120000"⟩

/-- An approval result the claim calls untrusted: the response was unparsable,
or it parsed but its resultCode field is absent. -/
def resultUntrusted : ApprovalResponse → Bool
  | ApprovalResponse.parsed r => r.resultCode = none
  | ApprovalResponse.parseFailed => true

/-! ## Claims -/

/-- C3: for every callback with resultCode "0000" whose claimed authUrl is not
exactly equal to the registry-derived approval URL for its dataCenterId, the
handler makes zero network calls and renders a failure record with sentinel
code 9999 and the URL-mismatch message (the source's literal is the Korean
string 'URL 매칭 실패', "URL matching failure", which the spec glosses as
"URL mismatch"). -/
theorem url_mismatch_no_network_call (sk : String) (now : Nat) (body : ReqBody)
    (resp : ApprovalResponse)
    (h0 : body.resultCode = some "0000")
    (h1 : body.authUrl ≠ inicisRegistry.getAuthUrl body.idc_name) :
    networkPosts (handleReturn inicisRegistry sk now body resp) = [] ∧
    (handleReturn inicisRegistry sk now body resp).rendered.resultCode = some "9999" ∧
    (handleReturn inicisRegistry sk now body resp).rendered.resultMsg = some "URL 매칭 실패" := by
  simp [handleReturn, handleApprove, h0, h1, networkPosts, renderMismatch, Event.isApprovalPost,
    Event.isNetCancelPost]

/-- C3 witness: a concrete tampered callback is rejected without any call. -/
theorem url_mismatch_no_network_call_witness :
    networkPosts (handleReturn inicisRegistry "key" 1234567890 mismatchBody
      ApprovalResponse.parseFailed) = [] ∧
    (handleReturn inicisRegistry "key" 1234567890 mismatchBody
      ApprovalResponse.parseFailed).rendered.resultCode = some "9999" ∧
    (handleReturn inicisRegistry "key" 1234567890 mismatchBody
      ApprovalResponse.parseFailed).rendered.resultMsg = some "URL 매칭 실패" :=
  url_mismatch_no_network_call "key" 1234567890 mismatchBody ApprovalResponse.parseFailed
    rfl (by decide)

/-- C4: for every callback with resultCode "0000" and authUrl equal to the
registry value for its dataCenterId, exactly one approval POST is issued, its
destination is the registry-derived URL, and the posted request carries the
fresh clock value as its timestamp with
authSignature = digest(authToken, timestamp) and
verification = digest(authToken, signKey, timestamp). -/
theorem approval_post_to_registry_url (sk : String) (now : Nat) (body : ReqBody)
    (resp : ApprovalResponse) (u : String)
    (h0 : body.resultCode = some "0000")
    (hu : inicisRegistry.getAuthUrl body.idc_name = some u)
    (ha : body.authUrl = some u) :
    approvalPosts (handleReturn inicisRegistry sk now body resp)
      = [Event.postApproval u (optionsFor sk now body)] ∧
    (optionsFor sk now body).signature
      = digestSpec [("authToken", jsStr body.authToken), ("timestamp", toString now)] ∧
    (optionsFor sk now body).verification
      = digestSpec [("authToken", jsStr body.authToken), ("signKey", sk),
          ("timestamp", toString now)] ∧
    (optionsFor sk now body).timestamp = now := by
  refine ⟨?_, approvalSig_eq _ _, approvalVerif_eq _ _ _, rfl⟩
  rcases resp with r | _
  · simp [handleReturn, handleApprove, h0, hu, ha, approvalPosts, Event.isApprovalPost]
  · obtain ⟨cu, hcu⟩ := inicisAuth_known hu
    simp only [handleReturn, handleApprove, h0, hu, ha, if_pos, approvalPosts, hcu]
    split_ifs <;> simp [Event.isApprovalPost]

/-- C4 witness: a concrete matching callback posts once to the registry URL. -/
theorem approval_post_to_registry_url_witness :
    approvalPosts (handleReturn inicisRegistry "key" 1234567890 okBody
        (ApprovalResponse.parsed okResp))
      = [Event.postApproval fcAuthUrl (optionsFor "key" 1234567890 okBody)] ∧
    (optionsFor "key" 1234567890 okBody).signature
      = digestSpec [("authToken", jsStr okBody.authToken), ("timestamp", toString 1234567890)] ∧
    (optionsFor "key" 1234567890 okBody).verification
      = digestSpec [("authToken", jsStr okBody.authToken), ("signKey", "key"),
          ("timestamp", toString 1234567890)] ∧
    (optionsFor "key" 1234567890 okBody).timestamp = 1234567890 :=
  approval_post_to_registry_url "key" 1234567890 okBody (ApprovalResponse.parsed okResp)
    fcAuthUrl rfl (by decide) rfl

/-- C6: for every resultCode-"0000" callback whose dataCenterId is unknown to
the Endpoint Registry (the lookup returns no result), the handler behaves as
in the URL-mismatch case: it makes no network call and renders a sentinel 9999
failure. -/
theorem unknown_data_center_rejected (sk : String) (now : Nat) (body : ReqBody)
    (resp : ApprovalResponse)
    (h0 : body.resultCode = some "0000")
    (h1 : inicisRegistry.getAuthUrl body.idc_name = none) :
    networkPosts (handleReturn inicisRegistry sk now body resp) = [] ∧
    (handleReturn inicisRegistry sk now body resp).rendered.resultCode = some "9999" := by
  rcases ha : body.authUrl with _ | a
  · simp [handleReturn, handleApprove, h0, h1, ha, networkPosts, renderServerError,
      Event.isApprovalPost, Event.isNetCancelPost]
  · simp [handleReturn, handleApprove, h0, h1, ha, networkPosts, renderMismatch,
      Event.isApprovalPost, Event.isNetCancelPost]

/-- C6 witness: a concrete unknown data center is rejected without any call. -/
theorem unknown_data_center_rejected_witness :
    networkPosts (handleReturn inicisRegistry "key" 1234567890 unknownIdcBody
      ApprovalResponse.parseFailed) = [] ∧
    (handleReturn inicisRegistry "key" 1234567890 unknownIdcBody
      ApprovalResponse.parseFailed).rendered.resultCode = some "9999" :=
  unknown_data_center_rejected "key" 1234567890 unknownIdcBody ApprovalResponse.parseFailed
    rfl (by decide)

/-- C7: for every approval response that parses with resultCode "0000" and tid
"T1", the rendered result carries resultCode "0000" and transaction id "T1",
and no compensation call occurs. -/
theorem parsed_success_passthrough (sk : String) (now : Nat) (body : ReqBody)
    (r : RespFields) (u : String)
    (h0 : body.resultCode = some "0000")
    (hu : inicisRegistry.getAuthUrl body.idc_name = some u)
    (ha : body.authUrl = some u)
    (hrc : r.resultCode = some "0000") (ht : r.tid = some "T1") :
    (handleReturn inicisRegistry sk now body
      (ApprovalResponse.parsed r)).rendered.resultCode = some "0000" ∧
    (handleReturn inicisRegistry sk now body
      (ApprovalResponse.parsed r)).rendered.tid = some "T1" ∧
    netCancelPosts (handleReturn inicisRegistry sk now body (ApprovalResponse.parsed r)) = [] := by
  simp [handleReturn, handleApprove, h0, hu, ha, renderParsed, jsOr, jsTruthy, hrc, ht,
    netCancelPosts, Event.isNetCancelPost]

/-- C7 witness: a concrete parsed success renders 0000 and T1, no cancel. -/
theorem parsed_success_passthrough_witness :
    (handleReturn inicisRegistry "key" 1234567890 okBody
      (ApprovalResponse.parsed okResp)).rendered.resultCode = some "0000" ∧
    (handleReturn inicisRegistry "key" 1234567890 okBody
      (ApprovalResponse.parsed okResp)).rendered.tid = some "T1" ∧
    netCancelPosts (handleReturn inicisRegistry "key" 1234567890 okBody
      (ApprovalResponse.parsed okResp)) = [] :=
  parsed_success_passthrough "key" 1234567890 okBody okResp fcAuthUrl
    rfl (by decide) rfl rfl rfl

/-- C8: for every callback whose resultCode is not "0000", the handler makes
no backend call and passes the callback's own fields through unchanged to the
rendered failure record. -/
theorem declined_callback_passthrough (sk : String) (now : Nat) (body : ReqBody)
    (resp : ApprovalResponse)
    (h0 : body.resultCode ≠ some "0000") :
    (handleReturn inicisRegistry sk now body resp).events = [] ∧
    (handleReturn inicisRegistry sk now body resp).rendered.resultCode = body.resultCode ∧
    (handleReturn inicisRegistry sk now body resp).rendered.resultMsg = body.resultMsg ∧
    (handleReturn inicisRegistry sk now body resp).rendered.tid = body.tid ∧
    (handleReturn inicisRegistry sk now body resp).rendered.MOID = body.MOID ∧
    (handleReturn inicisRegistry sk now body resp).rendered.TotPrice = body.TotPrice ∧
    (handleReturn inicisRegistry sk now body resp).rendered.goodName = body.goodName ∧
    (handleReturn inicisRegistry sk now body resp).rendered.applDate = body.applDate ∧
    (handleReturn inicisRegistry sk now body resp).rendered.applTime = body.applTime := by
  simp [handleReturn, h0, renderDecline]

/-- C8 witness: a concrete declined callback passes through with no events. -/
theorem declined_callback_passthrough_witness :
    (handleReturn inicisRegistry "key" 1234567890 declinedBody
      ApprovalResponse.parseFailed).events = [] ∧
    (handleReturn inicisRegistry "key" 1234567890 declinedBody
      ApprovalResponse.parseFailed).rendered.resultCode = declinedBody.resultCode ∧
    (handleReturn inicisRegistry "key" 1234567890 declinedBody
      ApprovalResponse.parseFailed).rendered.resultMsg = declinedBody.resultMsg ∧
    (handleReturn inicisRegistry "key" 1234567890 declinedBody
      ApprovalResponse.parseFailed).rendered.tid = declinedBody.tid ∧
    (handleReturn inicisRegistry "key" 1234567890 declinedBody
      ApprovalResponse.parseFailed).rendered.MOID = declinedBody.MOID ∧
    (handleReturn inicisRegistry "key" 1234567890 declinedBody
      ApprovalResponse.parseFailed).rendered.TotPrice = declinedBody.TotPrice ∧
    (handleReturn inicisRegistry "key" 1234567890 declinedBody
      ApprovalResponse.parseFailed).rendered.goodName = declinedBody.goodName ∧
    (handleReturn inicisRegistry "key" 1234567890 declinedBody
      ApprovalResponse.parseFailed).rendered.applDate = declinedBody.applDate ∧
    (handleReturn inicisRegistry "key" 1234567890 declinedBody
      ApprovalResponse.parseFailed).rendered.applTime = declinedBody.applTime :=
  declined_callback_passthrough "key" 1234567890 declinedBody ApprovalResponse.parseFailed
    (by decide)

/-- C10: if the approval response parses but its resultCode field is absent
(and so are tid, MOID, TotPrice), the handler renders resultCode "9999", MOID
and TotPrice fall back to the callback's oid and price, tid falls back to
"N/A", and no network-cancellation call is issued. -/
theorem parsed_missing_resultCode_fallbacks (sk : String) (now : Nat) (body : ReqBody)
    (r : RespFields) (u : String)
    (h0 : body.resultCode = some "0000")
    (hu : inicisRegistry.getAuthUrl body.idc_name = some u)
    (ha : body.authUrl = some u)
    (hrc : r.resultCode = none) (ht : r.tid = none) (hm : r.MOID = none)
    (htp : r.TotPrice = none) :
    (handleReturn inicisRegistry sk now body
      (ApprovalResponse.parsed r)).rendered.resultCode = some "9999" ∧
    (handleReturn inicisRegistry sk now body
      (ApprovalResponse.parsed r)).rendered.MOID = body.oid ∧
    (handleReturn inicisRegistry sk now body
      (ApprovalResponse.parsed r)).rendered.TotPrice = body.price ∧
    (handleReturn inicisRegistry sk now body
      (ApprovalResponse.parsed r)).rendered.tid = some "N/A" ∧
    netCancelPosts (handleReturn inicisRegistry sk now body (ApprovalResponse.parsed r)) = [] := by
  simp [handleReturn, handleApprove, h0, hu, ha, renderParsed, jsOr, jsTruthy, hrc, ht, hm, htp,
    netCancelPosts, Event.isNetCancelPost]

/-- C10 witness: a concrete parsed-but-empty response renders the fallbacks. -/
theorem parsed_missing_resultCode_fallbacks_witness :
    (handleReturn inicisRegistry "key" 1234567890 okBody
      (ApprovalResponse.parsed emptyResp)).rendered.resultCode = some "9999" ∧
    (handleReturn inicisRegistry "key" 1234567890 okBody
      (ApprovalResponse.parsed emptyResp)).rendered.MOID = okBody.oid ∧
    (handleReturn inicisRegistry "key" 1234567890 okBody
      (ApprovalResponse.parsed emptyResp)).rendered.TotPrice = okBody.price ∧
    (handleReturn inicisRegistry "key" 1234567890 okBody
      (ApprovalResponse.parsed emptyResp)).rendered.tid = some "N/A" ∧
    netCancelPosts (handleReturn inicisRegistry "key" 1234567890 okBody
      (ApprovalResponse.parsed emptyResp)) = [] :=
  parsed_missing_resultCode_fallbacks "key" 1234567890 okBody emptyResp fcAuthUrl
    rfl (by decide) rfl rfl rfl rfl rfl

/-- C1 counterexample: the claimed invariant — a network-cancellation call is
attempted iff an approval call was made and its result could not be trusted
(unparsable, or resultCode absent) — is false on the code. At this concrete
input the approval call is made and the parsed response has no resultCode
field (untrusted per the claim), yet the handler issues no cancellation: a
parse that succeeds never reaches the catch block that cancels. -/
theorem netCancel_iff_untrusted_cex :
    ¬ (netCancelPosts (handleReturn inicisRegistry "key" 1234567890 okBody
          (ApprovalResponse.parsed emptyResp)) ≠ [] ↔
       (approvalPosts (handleReturn inicisRegistry "key" 1234567890 okBody
          (ApprovalResponse.parsed emptyResp)) ≠ [] ∧
        resultUntrusted (ApprovalResponse.parsed emptyResp) = true)) := by
  decide

/-- C1 (amended): for every callback handled with resultCode "0000", a
network-cancellation call is attempted iff an approval call was made, its
response was unparsable (`JSON.parse` threw — a parsed response with an absent
resultCode does not count), and the callback's netCancelUrl equals the
registry-derived network-cancellation URL. -/
theorem netCancel_iff_parse_failure (sk : String) (now : Nat) (body : ReqBody)
    (resp : ApprovalResponse)
    (h0 : body.resultCode = some "0000") :
    (netCancelPosts (handleReturn inicisRegistry sk now body resp) ≠ [] ↔
      approvalPosts (handleReturn inicisRegistry sk now body resp) ≠ [] ∧
      resp = ApprovalResponse.parseFailed ∧
      body.netCancelUrl = inicisRegistry.getNetCancel body.idc_name) := by
  by_cases heq : body.authUrl = inicisRegistry.getAuthUrl body.idc_name
  · rcases hau : inicisRegistry.getAuthUrl body.idc_name with _ | u
    · rw [hau] at heq
      simp [handleReturn, handleApprove, h0, heq, hau, netCancelPosts, approvalPosts,
        Event.isNetCancelPost, Event.isApprovalPost]
    · rcases resp with r | _
      · simp [handleReturn, handleApprove, h0, heq, hau, netCancelPosts, approvalPosts,
          Event.isNetCancelPost, Event.isApprovalPost]
      · obtain ⟨cu, hcu⟩ := inicisAuth_known hau
        rw [hau] at heq
        by_cases hnc : body.netCancelUrl = inicisRegistry.getNetCancel body.idc_name
        · simp [handleReturn, handleApprove, h0, heq, hau, hnc, hcu, netCancelPosts, approvalPosts,
            Event.isNetCancelPost, Event.isApprovalPost]
        · simp [handleReturn, handleApprove, h0, heq, hau, hnc, hcu, netCancelPosts, approvalPosts,
            Event.isNetCancelPost, Event.isApprovalPost]
  · simp [handleReturn, handleApprove, h0, heq, netCancelPosts, approvalPosts,
      Event.isNetCancelPost, Event.isApprovalPost]

/-- C1 witness: at a concrete unparsable response with matching cancel URL the
amended equivalence holds with both sides true. -/
theorem netCancel_iff_parse_failure_witness :
    (netCancelPosts (handleReturn inicisRegistry "key" 1234567890 okBody
        ApprovalResponse.parseFailed) ≠ [] ↔
      approvalPosts (handleReturn inicisRegistry "key" 1234567890 okBody
        ApprovalResponse.parseFailed) ≠ [] ∧
      ApprovalResponse.parseFailed = ApprovalResponse.parseFailed ∧
      okBody.netCancelUrl = inicisRegistry.getNetCancel okBody.idc_name) :=
  netCancel_iff_parse_failure "key" 1234567890 okBody ApprovalResponse.parseFailed rfl

/-- C2 counterexample: the claim — for every approval call whose response is
not valid JSON, exactly one compensation call is issued — is false on the
code. At this concrete input the callback reaches the approval call (its
authUrl matches the registry) and the response is unparsable, yet zero
compensation calls are issued, because the callback's netCancelUrl differs
from the registry value and line 141's guard silently skips the cancel. -/
theorem compensation_on_unparsable_cex :
    evilCancelBody.resultCode = some "0000" ∧
    evilCancelBody.authUrl = inicisRegistry.getAuthUrl evilCancelBody.idc_name ∧
    approvalPosts (handleReturn inicisRegistry "key" 1234567890 evilCancelBody
      ApprovalResponse.parseFailed) ≠ [] ∧
    netCancelPosts (handleReturn inicisRegistry "key" 1234567890 evilCancelBody
      ApprovalResponse.parseFailed) = [] := by
  decide

/-- C2 (amended): for every approval call whose response is unparsable, a
compensation call is issued iff the callback's netCancelUrl equals the
registry-derived network-cancellation URL; when issued it is exactly one POST
whose destination is that registry URL, otherwise none is issued; in both
cases the buyer-facing result is a failure record with sentinel code 9999. -/
theorem compensation_guarded_by_cancel_url (sk : String) (now : Nat) (body : ReqBody)
    (u : String)
    (h0 : body.resultCode = some "0000")
    (hu : inicisRegistry.getAuthUrl body.idc_name = some u)
    (ha : body.authUrl = some u) :
    (body.netCancelUrl = inicisRegistry.getNetCancel body.idc_name →
      ∃ cu, inicisRegistry.getNetCancel body.idc_name = some cu ∧
        netCancelUris (handleReturn inicisRegistry sk now body
          ApprovalResponse.parseFailed) = [cu]) ∧
    (body.netCancelUrl ≠ inicisRegistry.getNetCancel body.idc_name →
      netCancelUris (handleReturn inicisRegistry sk now body
        ApprovalResponse.parseFailed) = []) ∧
    (handleReturn inicisRegistry sk now body
      ApprovalResponse.parseFailed).rendered.resultCode = some "9999" ∧
    (handleReturn inicisRegistry sk now body
      ApprovalResponse.parseFailed).rendered.resultMsg = some "승인 처리 중 오류 발생" := by
  obtain ⟨cu, hcu⟩ := inicisAuth_known hu
  refine ⟨fun hnc => ⟨cu, hcu, ?_⟩, fun hnc => ?_, ?_, ?_⟩ <;>
    simp_all [handleReturn, handleApprove, h0, hu, ha, netCancelUris, renderCatch]

/-- C2 witness: at a concrete matching callback with an unparsable response,
exactly one compensation POST goes to the registry's cancel URL. -/
theorem compensation_guarded_by_cancel_url_witness :
    (okBody.netCancelUrl = inicisRegistry.getNetCancel okBody.idc_name →
      ∃ cu, inicisRegistry.getNetCancel okBody.idc_name = some cu ∧
        netCancelUris (handleReturn inicisRegistry "key" 1234567890 okBody
          ApprovalResponse.parseFailed) = [cu]) ∧
    (okBody.netCancelUrl ≠ inicisRegistry.getNetCancel okBody.idc_name →
      netCancelUris (handleReturn inicisRegistry "key" 1234567890 okBody
        ApprovalResponse.parseFailed) = []) ∧
    (handleReturn inicisRegistry "key" 1234567890 okBody
      ApprovalResponse.parseFailed).rendered.resultCode = some "9999" ∧
    (handleReturn inicisRegistry "key" 1234567890 okBody
      ApprovalResponse.parseFailed).rendered.resultMsg = some "승인 처리 중 오류 발생" :=
  compensation_guarded_by_cancel_url "key" 1234567890 okBody fcAuthUrl rfl (by decide) rfl

/-- C5 counterexample: the claimed invariant — an ApprovalRequest is only
constructed after the callback's authUrl is confirmed equal to the registry
URL, and none is built for a rejected callback — is false on the code. At
this concrete rejected callback (authUrl differs from the registry value) the
handler still constructs the approval request: lines 87-102 compute the
signature, verification and options before the line-106 URL check. -/
theorem approval_request_built_early_cex :
    mismatchBody.resultCode = some "0000" ∧
    mismatchBody.authUrl ≠ inicisRegistry.getAuthUrl mismatchBody.idc_name ∧
    builtRequests (handleReturn inicisRegistry "key" 1234567890 mismatchBody
      ApprovalResponse.parseFailed) ≠ [] := by
  decide

/-- C5 (amended): for every callback handled with resultCode "0000" the
handler constructs exactly one ApprovalRequest (fresh timestamp, approval-time
signature and verification), and it does so before the URL check; when the
check rejects the callback the constructed request is never sent — no network
POST of any kind occurs. -/
theorem approval_request_built_then_gated (sk : String) (now : Nat) (body : ReqBody)
    (resp : ApprovalResponse)
    (h0 : body.resultCode = some "0000") :
    builtRequests (handleReturn inicisRegistry sk now body resp) = [optionsFor sk now body] ∧
    (body.authUrl ≠ inicisRegistry.getAuthUrl body.idc_name →
      networkPosts (handleReturn inicisRegistry sk now body resp) = []) := by
  constructor
  · by_cases heq : body.authUrl = inicisRegistry.getAuthUrl body.idc_name
    · rcases hau : inicisRegistry.getAuthUrl body.idc_name with _ | u
      · rw [hau] at heq
        simp [handleReturn, handleApprove, h0, heq, hau, builtRequests]
      · rcases resp with r | _
        · simp [handleReturn, handleApprove, h0, heq, hau, builtRequests]
        · obtain ⟨cu, hcu⟩ := inicisAuth_known hau
          rw [hau] at heq
          simp only [handleReturn, handleApprove, h0, heq, hau, if_pos, builtRequests, hcu]
          split_ifs <;> simp
    · simp [handleReturn, handleApprove, h0, heq, builtRequests]
  · intro h1
    simp [handleReturn, handleApprove, h0, h1, networkPosts, Event.isApprovalPost,
      Event.isNetCancelPost]

/-- C5 witness: at a concrete rejected callback the request was built exactly
once and nothing was posted. -/
theorem approval_request_built_then_gated_witness :
    builtRequests (handleReturn inicisRegistry "key" 1234567890 mismatchBody
      ApprovalResponse.parseFailed) = [optionsFor "key" 1234567890 mismatchBody] ∧
    (mismatchBody.authUrl ≠ inicisRegistry.getAuthUrl mismatchBody.idc_name →
      networkPosts (handleReturn inicisRegistry "key" 1234567890 mismatchBody
        ApprovalResponse.parseFailed) = []) :=
  approval_request_built_then_gated "key" 1234567890 mismatchBody
    ApprovalResponse.parseFailed rfl

/-- C9 counterexample: the claim's final clause — the requestSignature output
changes if any one field changes — is false in full generality: the digest
maps infinitely many order ids into the finite set of 64-character hex
strings, so by pigeonhole two distinct order ids (price and timestamp fixed)
share an output. The collision is nonconstructive: no explicit pair is known,
which is exactly why the clause cannot hold as a universal statement. -/
theorem requestSignature_field_change_cex :
    ¬ (∀ (oid1 oid2 price : String) (ts : Nat), oid1 ≠ oid2 →
        requestSignature oid1 price ts ≠ requestSignature oid2 price ts) := by
  intro hinj
  obtain ⟨o1, o2, hne, heqsig⟩ := requestSignature_collision "1000" 1234567890
  exact hinj o1 o2 "1000" 1234567890 hne heqsig

/-- C9 (amended): the source's requestSignature is the Signer's digest —
SHA-256 over the UTF-8 join of the ordered `oid`, `price`, `timestamp`
name=value pairs; its output is always a 64-character string of lowercase
hexadecimal characters; it is deterministic for identical inputs; and any
single-field change changes the SHA-256 input string (so equal outputs of
single-field-different inputs would exhibit a SHA-256 collision) — though
output collisions must exist in principle, as the counterexample shows. -/
theorem requestSignature_spec (oid price : String) (ts : Nat) :
    requestSignature oid price ts
        = digestSpec [("oid", oid), ("price", price), ("timestamp", toString ts)] ∧
    (requestSignature oid price ts).length = 64 ∧
    (∀ c ∈ (requestSignature oid price ts).toList, c ∈ hexDigits) ∧
    (∀ o2 p2 t2, o2 = oid → p2 = price → t2 = ts →
      requestSignature o2 p2 t2 = requestSignature oid price ts) ∧
    (∀ oid2, sigInput oid price ts = sigInput oid2 price ts → oid = oid2) ∧
    (∀ price2, sigInput oid price ts = sigInput oid price2 ts → price = price2) ∧
    (∀ ts2, sigInput oid price ts = sigInput oid price ts2 → ts = ts2) := by
  refine ⟨?_, sha256hex_length _, sha256hex_chars _,
    ?_, fun _ => sigInput_oid_inj, fun _ => sigInput_price_inj, fun _ => sigInput_ts_inj⟩
  · unfold digestSpec
    simp only [List.map]
    exact congrArg sha256hex (sigInput_eq_joinAmp oid price ts)
  · intro o2 p2 t2 h1 h2 h3
    rw [h1, h2, h3]

/-- C9 witness: the amended statement at the source's own sample order data,
with the inner implications discharged at equal inputs. -/
theorem requestSignature_spec_witness :
    requestSignature "INIpayTest_01234" "1000" 1234567890
        = digestSpec [("oid", "INIpayTest_01234"), ("price", "1000"),
            ("timestamp", toString 1234567890)] ∧
    (requestSignature "INIpayTest_01234" "1000" 1234567890).length = 64 ∧
    "INIpayTest_01234" = "INIpayTest_01234" :=
  ⟨(requestSignature_spec "INIpayTest_01234" "1000" 1234567890).1,
   (requestSignature_spec "INIpayTest_01234" "1000" 1234567890).2.1,
   (requestSignature_spec "INIpayTest_01234" "1000" 1234567890).2.2.2.2.1
     "INIpayTest_01234" rfl⟩

set_option maxRecDepth 8000 in
/-- FIPS 180-4 test vector: the digest of the empty message, confirming the
SHA-256 embedding against the standard. -/
theorem sha256hex_empty :
    sha256hex "" = "e3b0c44298fc1c149afbf4c8996fb92427ae41e4649b934ca495991b7852b855" := by
  decide

set_option maxRecDepth 8000 in
/-- FIPS 180-4 test vector: the digest of "abc". -/
theorem sha256hex_abc :
    sha256hex "abc" = "ba7816bf8f01cfea414140de5dae2223b00361a396177a9cb410ff61f20015ad" := by
  decide
